import Mathlib

/-!
Shallow embedding of the client-onboarding form (`src/app/page.js`):
the zod validation schema (`formSchema`), the payload construction and
the submit handler (`onSubmit`), together with a small transition system
for the submit lifecycle driven by the `disabled={isSubmitting}` guard.

Machine conventions used throughout:
* JavaScript numbers are modelled as `ℚ` (every value the schema can
  accept is rational; `NaN` is modelled as `Option.none` where it can
  arise from `Number(...)`).
* Epoch timestamps are `ℕ` milliseconds; the JS `Date` parser is passed
  in as an oracle argument (`Option ℕ`, `none` = Invalid Date), since it
  is a platform function, not repository code.
-/

/-- A JavaScript value as it can reach the `budgetUsd` branch of the zod
schema: a number, a string, or `undefined`. -/
inductive JSVal where
  | num (v : ℚ)
  | str (s : String)
  | undef
deriving DecidableEq

/-! ### fullName: `z.string().min(2).max(80).regex(/^[a-zA-Z\s'-]+$/)` -/

/-- The JS regex character class `\s` (ECMAScript WhiteSpace and
LineTerminator code points). -/
def jsWhitespace (c : Char) : Bool :=
  c.val = 9 || c.val = 10 || c.val = 11 || c.val = 12 || c.val = 13 ||
  c.val = 32 || c.val = 160 || c.val = 0x1680 ||
  (0x2000 ≤ c.val && c.val ≤ 0x200a) ||
  c.val = 0x2028 || c.val = 0x2029 || c.val = 0x202f || c.val = 0x205f ||
  c.val = 0x3000 || c.val = 0xfeff

/-- The character class `[a-zA-Z\s'-]` of the fullName regex. -/
def fullNameClass (c : Char) : Bool :=
  (('a' ≤ c && c ≤ 'z') || ('A' ≤ c && c ≤ 'Z')) ||
  jsWhitespace c || c = '-' || c = '\''

/-- `/^[a-zA-Z\s'-]+$/.test s`: the whole string is a nonempty run of
class characters. -/
def fullNameRegexTest (s : String) : Bool :=
  !s.data.isEmpty && s.data.all fullNameClass

/-- The fullName field rule: `min(2)`, `max(80)`, and the regex. -/
def validateFullName (s : String) : Bool :=
  decide (2 ≤ s.length) && decide (s.length ≤ 80) && fullNameRegexTest s

/-! ### services: `z.array(z.string()).min(1)` -/

def SERVICE_OPTIONS : List String := ["UI/UX", "Branding", "Web Dev", "Mobile App"]

/-- The services field rule: the schema only checks that the array has at
least one element; element membership in `SERVICE_OPTIONS` is not part of
the schema. -/
def validateServices (services : List String) : Bool :=
  decide (1 ≤ services.length)

/-! ### budgetUsd:
`z.union([z.number().int(), z.literal("")]).optional()
  .refine(val => val === "" || (val >= 100 && val <= 1000000))
  .transform(val => val === "" ? undefined : Number(val))` -/

def budgetIntErr : String := "Budget must be an integer."

def budgetRangeErr : String := "Budget must be between 100 and 1,000,000 USD."

/-- `z.union([z.number().int(...), z.literal("")])`. -/
def budgetUnion : JSVal → Except String JSVal
  | .num v => if v.den = 1 then .ok (.num v) else .error budgetIntErr
  | .str s => if s = "" then .ok (.str s) else .error "Invalid literal value"
  | .undef => .error "Required"

/-- `.optional()`: `undefined` passes through without running the inner
union; anything else is parsed by the union. -/
def budgetOptional : JSVal → Except String JSVal
  | .undef => .ok .undef
  | .num v => budgetUnion (.num v)
  | .str s => budgetUnion (.str s)

/-- JS strict equality `val === ""`. -/
def jsEqEmptyStr : JSVal → Bool
  | .str s => s = ""
  | _ => false

/-- JS `Number(val)` (`none` = `NaN`). `Number(undefined)` is `NaN`;
`Number("")` is `0`; other strings never reach a numeric context here
because the union admits only numbers and `""`, so an integer-literal
approximation suffices for them. -/
def jsToNumber : JSVal → Option ℚ
  | .num v => some v
  | .undef => none
  | .str s => if s = "" then some 0 else (s.toInt?).map (fun n => (n : ℚ))

/-- JS `val >= n`: `NaN` comparisons are false. -/
def jsGe (x : JSVal) (n : ℚ) : Bool :=
  match jsToNumber x with
  | none => false
  | some v => n ≤ v

/-- JS `val <= n`: `NaN` comparisons are false. -/
def jsLe (x : JSVal) (n : ℚ) : Bool :=
  match jsToNumber x with
  | none => false
  | some v => v ≤ n

/-- The `.refine` predicate `val === "" || (val >= 100 && val <= 1000000)`.
Note that it receives the output of `.optional()`, so it also runs on
`undefined`, where both disjuncts are false. -/
def budgetRefine (val : JSVal) : Bool :=
  jsEqEmptyStr val || (jsGe val 100 && jsLe val 1000000)

/-- The `.transform`: `val === "" ? undefined : Number(val)` (`none` =
`undefined`; only `""` and integral numbers can reach the transform). -/
def budgetTransform (val : JSVal) : Option ℚ :=
  if jsEqEmptyStr val then none else jsToNumber val

deriving instance DecidableEq for Except

/-- The whole budgetUsd branch of the schema. -/
def validateBudget (x : JSVal) : Except String (Option ℚ) :=
  match budgetOptional x with
  | .error e => .error e
  | .ok v => if budgetRefine v then .ok (budgetTransform v) else .error budgetRangeErr

/-! ### projectStartDate:
`z.string().min(1).refine(date => new Date(date) >= new Date(new Date().setHours(0,0,0,0)))` -/

def msPerDay : ℕ := 86400000

/-- `new Date(now).setHours(0, 0, 0, 0)`: the timestamp truncated to the
start of its calendar day. -/
def startOfDay (t : ℕ) : ℕ := msPerDay * (t / msPerDay)

def dateRequiredErr : String := "Project start date is required."

def dateRangeErr : String := "Project start date must be today or later."

/-- The projectStartDate field rule. `parsed` is the oracle for
`new Date(s)` (`none` = Invalid Date, whose `>=` comparison is always
false because it is `NaN`). -/
def validateStartDate (now : ℕ) (s : String) (parsed : Option ℕ) : Except String String :=
  if 1 ≤ s.length then
    match parsed with
    | none => .error dateRangeErr
    | some t => if startOfDay now ≤ t then .ok s else .error dateRangeErr
  else .error dateRequiredErr

/-! ### ISO date formatting (payload serialization) -/

/-- Days-since-epoch to (year, month, day) in the proleptic Gregorian
calendar (the standard civil-from-days computation). -/
def civilFromDays (z0 : ℕ) : ℕ × ℕ × ℕ :=
  let z := z0 + 719468
  let era := z / 146097
  let doe := z % 146097
  let yoe := (doe - doe / 1460 + doe / 36524 - doe / 146096) / 365
  let y := yoe + era * 400
  let doy := doe - (365 * yoe + yoe / 4 - yoe / 100)
  let mp := (5 * doy + 2) / 153
  let d := doy - (153 * mp + 2) / 5 + 1
  let m := if mp < 10 then mp + 3 else mp - 9
  (if m ≤ 2 then y + 1 else y, m, d)

/-- The decimal digit character for `n % 10`. -/
def digitChar (n : ℕ) : Char := Char.ofNat (48 + n % 10)

/-- Two-digit zero-padded decimal rendering (for values below 100). -/
def pad2 (n : ℕ) : String := String.mk [digitChar (n / 10), digitChar n]

/-- Three-digit zero-padded decimal rendering (for values below 1000). -/
def pad3 (n : ℕ) : String :=
  String.mk [digitChar (n / 100), digitChar (n / 10), digitChar n]

/-- Four-digit zero-padded decimal rendering (for values below 10000). -/
def pad4 (n : ℕ) : String :=
  String.mk [digitChar (n / 1000), digitChar (n / 100), digitChar (n / 10), digitChar n]

/-- Modelled from the platform: the calendar-date part "YYYY-MM-DD" of
`Date.prototype.toISOString` at an epoch timestamp (years 1970–9999). -/
def isoDatePart (t : ℕ) : String :=
  pad4 (civilFromDays (t / msPerDay)).1 ++ "-" ++
  pad2 (civilFromDays (t / msPerDay)).2.1 ++ "-" ++
  pad2 (civilFromDays (t / msPerDay)).2.2

/-- Modelled from the platform: `Date.prototype.toISOString`,
"YYYY-MM-DDTHH:mm:ss.sssZ" (years 1970–9999). -/
def toISOString (t : ℕ) : String :=
  isoDatePart t ++
  ("T" ++
    (pad2 (t % msPerDay / 3600000) ++ ":" ++ pad2 (t % 3600000 / 60000) ++ ":" ++
      pad2 (t % 60000 / 1000) ++ "." ++ pad3 (t % 1000) ++ "Z"))

/-- `s.split("T")[0]`: the prefix of `s` before its first 'T'. -/
def jsSplitHeadT (s : String) : String :=
  String.mk (s.data.takeWhile (fun c => c != 'T'))

/-! ### The submit handler `onSubmit` -/

/-- A JSON value (the shape of the request payload). -/
inductive Json where
  | str (s : String)
  | num (v : ℚ)
  | bool (b : Bool)
  | arr (xs : List Json)
  | obj (fields : List (String × Json))

/-- Validated form data as the resolver delivers it to `onSubmit`
(`budgetUsd` is the schema's transformed output: a number or absent). -/
structure FormData where
  fullName : String
  email : String
  companyName : String
  services : List String
  budgetUsd : Option ℚ
  projectStartDate : String
  acceptTerms : Bool

/-- The raw field values held by the form controls. -/
structure RawForm where
  fullName : String
  email : String
  companyName : String
  services : List String
  budgetUsd : JSVal
  projectStartDate : String
  acceptTerms : Bool
deriving DecidableEq

/-- The `defaultValues` passed to `useForm`. -/
def defaultValues : RawForm :=
  { fullName := "", email := "", companyName := "", services := [],
    budgetUsd := .str "", projectStartDate := "", acceptTerms := false }

/-- The request body: the spread of `data` with `budgetUsd` replaced by
`data.budgetUsd ? Number(data.budgetUsd) : undefined` (a truthiness
test), `projectStartDate` replaced by
`new Date(data.projectStartDate).toISOString().split("T")[0]`, and
`undefined`-valued properties dropped as `JSON.stringify` does.
`parsedStart` is the oracle for `new Date(data.projectStartDate)`. -/
def buildPayload (d : FormData) (parsedStart : ℕ) : List (String × Json) :=
  [("fullName", .str d.fullName),
   ("email", .str d.email),
   ("companyName", .str d.companyName),
   ("services", .arr (d.services.map Json.str))] ++
  (match d.budgetUsd with
   | some v => if v ≠ 0 then [("budgetUsd", Json.num v)] else []
   | none => []) ++
  [("projectStartDate", .str (jsSplitHeadT (toISOString parsedStart))),
   ("acceptTerms", .bool d.acceptTerms)]

def configErrMsg : String :=
  "API URL is not configured. Please set the NEXT_PUBLIC_ONBOARD_URL environment variable."

def apiErrMsg (status : ℕ) : String :=
  "API Error: " ++ toString status ++ " - An error occurred."

def networkErrMsg : String := "Network Error: Could not connect to the API."

/-- JS falsiness of the configured `apiUrl` (`!apiUrl`): `undefined` and
the empty string are falsy. -/
def jsFalsyUrl : Option String → Bool
  | none => true
  | some s => s = ""

/-- `Response.ok`: the status is in the range 200–299. -/
def responseOk (status : ℕ) : Bool := 200 ≤ status && status < 300

/-- The component state `onSubmit` touches, plus a count of issued
`fetch` calls as instrumentation. -/
structure AppState where
  isSubmitting : Bool
  isSubmitted : Bool
  submissionError : Option String
  submittedData : Option Json
  formValues : RawForm
  fetchCount : ℕ

/-- How the single `fetch` settles: an HTTP response, or a thrown
transport error. -/
inductive FetchOutcome where
  | response (status : ℕ) (body : Json)
  | networkFailure

/-- The `onSubmit` handler as a state transformer: the `setX` calls are
merged into the returned state, `reset()` restores `defaultValues`, and
`fetchCount` increases exactly when `fetch` is called. -/
def onSubmit (apiUrl : Option String) (data : FormData) (parsedStart : ℕ)
    (outcome : FetchOutcome) (s : AppState) : AppState :=
  let s1 : AppState :=
    { s with isSubmitting := true, submissionError := none, isSubmitted := false }
  if jsFalsyUrl apiUrl then
    { s1 with submissionError := some configErrMsg, isSubmitting := false }
  else
    let payload := buildPayload data parsedStart
    let s2 : AppState := { s1 with fetchCount := s1.fetchCount + 1 }
    match outcome with
    | .response status _body =>
      if responseOk status then
        { s2 with isSubmitted := true, submittedData := some (.obj payload),
                  formValues := defaultValues, isSubmitting := false }
      else
        { s2 with submissionError := some (apiErrMsg status), isSubmitting := false }
    | .networkFailure =>
      { s2 with submissionError := some networkErrMsg, isSubmitting := false }

/-- A concrete validated record used to instantiate the submission
theorems. -/
def sampleData : FormData :=
  { fullName := "Jane Doe", email := "jane@example.com", companyName := "Acme Co",
    services := ["Branding"], budgetUsd := none,
    projectStartDate := "2025-01-02", acceptTerms := true }

/-- A concrete idle state used to instantiate the submission theorems. -/
def sampleState : AppState :=
  { isSubmitting := false, isSubmitted := false, submissionError := none,
    submittedData := none, formValues := defaultValues, fetchCount := 0 }

/-! ### The submit lifecycle as a transition system -/

/-- The lifecycle state: the `isSubmitting` flag and the number of
outstanding `fetch` calls. -/
structure SubmitSt where
  isSubmitting : Bool
  inflight : ℕ
deriving DecidableEq

/-- One event of the submit lifecycle. A click is only possible while the
submit button is enabled (`disabled={isSubmitting}` is false); it either
fails the configuration check synchronously without fetching, or issues a
fetch and suspends with `isSubmitting` set; a settled fetch runs the
response handling and the `finally` block, clearing the flag. -/
inductive SubmitStep : SubmitSt → SubmitSt → Prop where
  | click_config (s : SubmitSt) (h : s.isSubmitting = false) :
      SubmitStep s ⟨false, s.inflight⟩
  | click_fetch (s : SubmitSt) (h : s.isSubmitting = false) :
      SubmitStep s ⟨true, s.inflight + 1⟩
  | settle (s : SubmitSt) (h : 0 < s.inflight) :
      SubmitStep s ⟨false, s.inflight - 1⟩

/-- The state at mount: not submitting, nothing in flight. -/
def initSt : SubmitSt := ⟨false, 0⟩

/-- States reachable in the submit lifecycle. -/
def ReachableSt (s : SubmitSt) : Prop := Relation.ReflTransGen SubmitStep initSt s

/-- The inductive invariant of the lifecycle: at most one fetch is
outstanding, and none while the button is enabled. -/
def SubmitInv (s : SubmitSt) : Prop :=
  s.inflight ≤ 1 ∧ (s.isSubmitting = false → s.inflight = 0)

/-! ### Claim theorems for the field rules -/

/-- C7: fullName is accepted exactly when its length is between 2 and 80
and every character is a letter, a space (whitespace), a hyphen or an
apostrophe; "Jane O'Brien" and "Anne-Marie" are accepted, "J" and
"John123" are rejected. -/
theorem fullName_rule :
    (∀ s : String, validateFullName s = true ↔
      (2 ≤ s.length ∧ s.length ≤ 80 ∧ ∀ c ∈ s.data, fullNameClass c = true))
    ∧ validateFullName "Jane O'Brien" = true
    ∧ validateFullName "Anne-Marie" = true
    ∧ validateFullName "J" = false
    ∧ validateFullName "John123" = false := by
  refine ⟨fun s => ?_, by decide, by decide, by decide, by decide⟩
  unfold validateFullName fullNameRegexTest
  simp only [Bool.and_eq_true, decide_eq_true_eq, Bool.not_eq_true',
    List.isEmpty_eq_false, List.all_eq_true]
  constructor
  · rintro ⟨⟨h1, h2⟩, _, h3⟩
    exact ⟨h1, h2, h3⟩
  · rintro ⟨h1, h2, h3⟩
    refine ⟨⟨h1, h2⟩, ?_, h3⟩
    intro hnil
    have : s.length = 0 := by
      show s.data.length = 0
      simp [hnil]
    omega

/-- C1 counterexample: a services list containing a string outside
`SERVICE_OPTIONS` is nevertheless accepted by the schema. -/
theorem services_outside_options_accepted :
    validateServices ["Gardening"] = true ∧ "Gardening" ∉ SERVICE_OPTIONS := by
  constructor
  · decide
  · decide

/-- C1 (amended): the schema accepts the services field exactly when it
contains at least one value; membership in the fixed option set is not
checked by the schema. -/
theorem services_rule (l : List String) :
    validateServices l = true ↔ l ≠ [] := by
  unfold validateServices
  simp [Nat.succ_le_iff, List.length_pos]

/-- C5: budget validation accepts "" (skipping the range check), rejects
99 and 1000001, accepts the boundary values 100 and 1000000, and accepts
a present number exactly when it is an integer in [100, 1000000]; but an
absent (`undefined`) budget is REJECTED, because the `.refine` also runs
on the output of `.optional()` and both of its disjuncts are false at
`undefined` — contradicting the `.optional()` marker's intent. -/
theorem budget_rule :
    (∀ v : ℚ, validateBudget (.num v) = .ok (some v) ↔
      (v.den = 1 ∧ 100 ≤ v ∧ v ≤ 1000000))
    ∧ validateBudget (.str "") = .ok none
    ∧ validateBudget (.num 99) = .error budgetRangeErr
    ∧ validateBudget (.num 100) = .ok (some 100)
    ∧ validateBudget (.num 1000000) = .ok (some 1000000)
    ∧ validateBudget (.num 1000001) = .error budgetRangeErr
    ∧ validateBudget .undef = .error budgetRangeErr := by
  refine ⟨fun v => ?_, by decide, by decide, by decide, by decide, by decide, by decide⟩
  by_cases hden : v.den = 1 <;>
    by_cases h1 : (100 : ℚ) ≤ v <;>
      by_cases h2 : v ≤ 1000000 <;>
        simp [validateBudget, budgetOptional, budgetUnion, budgetRefine,
          budgetTransform, jsEqEmptyStr, jsGe, jsLe, jsToNumber,
          hden, h1, h2, budgetIntErr, budgetRangeErr]

/-- C6: with a nonempty date string and a single wall clock, a parseable
projectStartDate is accepted exactly when its calendar day is today's or
a later one (the timestamp comparison against today's midnight ignores
the candidate's time of day at the calendar-day granularity), and the
empty string is rejected as required. -/
theorem startDate_rule (now t : ℕ) (s : String) (hs : 1 ≤ s.length) :
    (validateStartDate now s (some t) = .ok s ↔ now / msPerDay ≤ t / msPerDay)
    ∧ validateStartDate now "" (some t) = .error dateRequiredErr := by
  have hD : 0 < msPerDay := by decide
  constructor
  · unfold validateStartDate
    rw [if_pos hs]
    have key : startOfDay now ≤ t ↔ now / msPerDay ≤ t / msPerDay := by
      unfold startOfDay
      rw [Nat.le_div_iff_mul_le hD, Nat.mul_comm]
    by_cases h : startOfDay now ≤ t
    · simp [h, key.mp h]
    · simp only [if_neg h]
      constructor
      · intro hcon
        exact absurd hcon (by simp)
      · intro hle
        exact absurd (key.mpr hle) h
  · unfold validateStartDate
    simp

/-- C6 witness: a concrete clock two days and one hour past the epoch,
and a date string parsing to the start of that same day, is accepted. -/
theorem startDate_rule_witness :
    1 ≤ ("1970-01-03" : String).length
    ∧ ((validateStartDate (86400000 * 2 + 3600000) "1970-01-03" (some (86400000 * 2)) =
          .ok "1970-01-03" ↔
        (86400000 * 2 + 3600000) / msPerDay ≤ (86400000 * 2) / msPerDay)
      ∧ validateStartDate (86400000 * 2 + 3600000) "" (some (86400000 * 2)) =
          .error dateRequiredErr) :=
  ⟨by decide, startDate_rule (86400000 * 2 + 3600000) (86400000 * 2) "1970-01-03" (by decide)⟩

/-! ### Helper lemmas -/

theorem digitChar_isDigit (n : ℕ) : (digitChar n).isDigit = true := by
  have h : n % 10 < 10 := Nat.mod_lt n (by decide)
  unfold digitChar
  revert h
  generalize n % 10 = k
  intro h
  interval_cases k <;> decide

theorem digitChar_ne_T (n : ℕ) : (digitChar n != 'T') = true := by
  have hd := digitChar_isDigit n
  simp only [bne_iff_ne, ne_eq]
  intro heq
  rw [heq] at hd
  exact absurd hd (by decide)

theorem isoDatePart_data (t : ℕ) :
    (isoDatePart t).data =
      [digitChar ((civilFromDays (t / msPerDay)).1 / 1000),
       digitChar ((civilFromDays (t / msPerDay)).1 / 100),
       digitChar ((civilFromDays (t / msPerDay)).1 / 10),
       digitChar (civilFromDays (t / msPerDay)).1, '-',
       digitChar ((civilFromDays (t / msPerDay)).2.1 / 10),
       digitChar (civilFromDays (t / msPerDay)).2.1, '-',
       digitChar ((civilFromDays (t / msPerDay)).2.2 / 10),
       digitChar (civilFromDays (t / msPerDay)).2.2] := rfl

theorem isoDatePart_no_T (t : ℕ) :
    ∀ c ∈ (isoDatePart t).data, (c != 'T') = true := by
  intro c hc
  rw [isoDatePart_data] at hc
  simp only [List.mem_cons, List.not_mem_nil, or_false] at hc
  rcases hc with h | h | h | h | h | h | h | h | h | h <;> subst h <;>
    first
    | exact digitChar_ne_T _
    | decide

theorem takeWhile_head_run {p : Char → Bool} :
    ∀ (l1 : List Char) (a : Char) (l2 : List Char),
      (∀ c ∈ l1, p c = true) → p a = false → (l1 ++ a :: l2).takeWhile p = l1 := by
  intro l1
  induction l1 with
  | nil =>
    intro a l2 _ ha
    simp [List.takeWhile, ha]
  | cons x xs ih =>
    intro a l2 h ha
    have hx : p x = true := h x (by simp)
    simp only [List.cons_append, List.takeWhile, hx, List.append_eq]
    rw [ih a l2 (fun c hc => h c (by simp [hc])) ha]

theorem jsSplitHeadT_toISOString (t : ℕ) :
    jsSplitHeadT (toISOString t) = isoDatePart t := by
  unfold jsSplitHeadT
  have hdata : (toISOString t).data = (isoDatePart t).data ++ 'T' ::
      (pad2 (t % msPerDay / 3600000) ++ ":" ++ pad2 (t % 3600000 / 60000) ++ ":" ++
        pad2 (t % 60000 / 1000) ++ "." ++ pad3 (t % 1000) ++ "Z").data := rfl
  rw [hdata, takeWhile_head_run _ _ _ (isoDatePart_no_T t) (by decide)]

theorem validateBudget_ok_bounds (x : JSVal) (v : ℚ)
    (h : validateBudget x = .ok (some v)) : 100 ≤ v ∧ v ≤ 1000000 := by
  cases x with
  | undef =>
    simp [validateBudget, budgetOptional, budgetRefine, jsEqEmptyStr,
      jsGe, jsLe, jsToNumber] at h
  | str s =>
    by_cases hs : s = "" <;>
      simp [validateBudget, budgetOptional, budgetUnion, hs, budgetRefine,
        jsEqEmptyStr, jsGe, jsLe, jsToNumber, budgetTransform] at h
  | num w =>
    by_cases hden : w.den = 1 <;>
      by_cases h1 : (100 : ℚ) ≤ w <;>
        by_cases h2 : w ≤ 1000000 <;>
          simp [validateBudget, budgetOptional, budgetUnion, hden, budgetRefine,
            jsEqEmptyStr, jsGe, jsLe, jsToNumber, budgetTransform, h1, h2] at h
    exact h ▸ ⟨h1, h2⟩

/-! ### Claim theorems for the submission controller -/

/-- C9: the request body contains fullName, email, companyName, services
and acceptTerms verbatim, the projectStartDate normalized to the
"YYYY-MM-DD" calendar-date part of the ISO timestamp, and budgetUsd as a
number exactly when a (validated) budget is present, omitted when it is
absent. -/
theorem payload_contract (d : FormData) (t : ℕ)
    (hv : d.budgetUsd = none ∨ ∃ x, validateBudget x = .ok d.budgetUsd) :
    ((buildPayload d t).lookup "fullName" = some (.str d.fullName))
    ∧ ((buildPayload d t).lookup "email" = some (.str d.email))
    ∧ ((buildPayload d t).lookup "companyName" = some (.str d.companyName))
    ∧ ((buildPayload d t).lookup "services" = some (.arr (d.services.map Json.str)))
    ∧ ((buildPayload d t).lookup "acceptTerms" = some (.bool d.acceptTerms))
    ∧ ((buildPayload d t).lookup "projectStartDate" = some (.str (isoDatePart t)))
    ∧ (∃ ys ms ds : String, isoDatePart t = ys ++ "-" ++ ms ++ "-" ++ ds
        ∧ ys.length = 4 ∧ ms.length = 2 ∧ ds.length = 2
        ∧ ∀ c ∈ ys.data ++ ms.data ++ ds.data, c.isDigit = true)
    ∧ (d.budgetUsd = none → (buildPayload d t).lookup "budgetUsd" = none)
    ∧ (∀ v, d.budgetUsd = some v → (buildPayload d t).lookup "budgetUsd" = some (.num v)) := by
  have hshape : ∃ ys ms ds : String, isoDatePart t = ys ++ "-" ++ ms ++ "-" ++ ds
      ∧ ys.length = 4 ∧ ms.length = 2 ∧ ds.length = 2
      ∧ ∀ c ∈ ys.data ++ ms.data ++ ds.data, c.isDigit = true := by
    refine ⟨pad4 (civilFromDays (t / msPerDay)).1,
      pad2 (civilFromDays (t / msPerDay)).2.1,
      pad2 (civilFromDays (t / msPerDay)).2.2, rfl, rfl, rfl, rfl, ?_⟩
    intro c hc
    simp only [pad4, pad2, List.mem_append, List.mem_cons, List.not_mem_nil,
      or_false] at hc
    rcases hc with ((h | h | h | h) | (h | h)) | (h | h) <;> subst h <;>
      exact digitChar_isDigit _
  rcases hb : d.budgetUsd with _ | v
  · have hpl : buildPayload d t =
        [("fullName", .str d.fullName),
         ("email", .str d.email),
         ("companyName", .str d.companyName),
         ("services", .arr (d.services.map Json.str)),
         ("projectStartDate", .str (jsSplitHeadT (toISOString t))),
         ("acceptTerms", .bool d.acceptTerms)] := by
      simp [buildPayload, hb]
    rw [jsSplitHeadT_toISOString] at hpl
    refine ⟨?_, ?_, ?_, ?_, ?_, ?_, hshape, fun _ => ?_, fun w hw => ?_⟩
    · rw [hpl]; rfl
    · rw [hpl]; rfl
    · rw [hpl]; rfl
    · rw [hpl]; rfl
    · rw [hpl]; rfl
    · rw [hpl]; rfl
    · rw [hpl]; rfl
    · exact absurd hw (by simp)
  · have hbounds : 100 ≤ v ∧ v ≤ 1000000 := by
      rcases hv with h | ⟨x, hx⟩
      · rw [hb] at h; exact absurd h (by simp)
      · rw [hb] at hx; exact validateBudget_ok_bounds x v hx
    have hv0 : v ≠ 0 := by
      intro h0
      rw [h0] at hbounds
      exact absurd hbounds.1 (by norm_num)
    have hpl : buildPayload d t =
        [("fullName", .str d.fullName),
         ("email", .str d.email),
         ("companyName", .str d.companyName),
         ("services", .arr (d.services.map Json.str)),
         ("budgetUsd", Json.num v),
         ("projectStartDate", .str (jsSplitHeadT (toISOString t))),
         ("acceptTerms", .bool d.acceptTerms)] := by
      simp [buildPayload, hb, hv0]
    rw [jsSplitHeadT_toISOString] at hpl
    refine ⟨?_, ?_, ?_, ?_, ?_, ?_, hshape, fun hn => ?_, fun w hw => ?_⟩
    · rw [hpl]; rfl
    · rw [hpl]; rfl
    · rw [hpl]; rfl
    · rw [hpl]; rfl
    · rw [hpl]; rfl
    · rw [hpl]; rfl
    · exact absurd hn (by simp)
    · obtain rfl : v = w := Option.some.inj hw
      rw [hpl]; rfl

/-- C9 witness: the payload contract instantiated at a concrete record
with a present budget of 500 and the epoch timestamp of 2025-01-02. -/
theorem payload_contract_witness :
    (({ sampleData with budgetUsd := some 500 } : FormData).budgetUsd = none
      ∨ ∃ x, validateBudget x = .ok ({ sampleData with budgetUsd := some 500 } : FormData).budgetUsd)
    ∧ ((buildPayload { sampleData with budgetUsd := some 500 } 1735776000000).lookup "budgetUsd"
        = some (.num 500)) := by
  have hv : ({ sampleData with budgetUsd := some 500 } : FormData).budgetUsd = none
      ∨ ∃ x, validateBudget x = .ok ({ sampleData with budgetUsd := some 500 } : FormData).budgetUsd :=
    Or.inr ⟨.num 500, by decide⟩
  refine ⟨hv, ?_⟩
  exact (payload_contract { sampleData with budgetUsd := some 500 } 1735776000000 hv).2.2.2.2.2.2.2.2
    500 rfl

/-- C2 counterexample: on a 2xx response the succeeded state carries the
request payload that was sent, not the response body — at a 200 response
whose body is the string "thanks", the carried data is the payload object
and differs from that body. -/
theorem submit_success_counterexample :
    (onSubmit (some "https://api.example.com/onboard") sampleData 1735776000000
        (.response 200 (.str "thanks")) sampleState).isSubmitted = true
    ∧ (onSubmit (some "https://api.example.com/onboard") sampleData 1735776000000
        (.response 200 (.str "thanks")) sampleState).submittedData
        = some (.obj (buildPayload sampleData 1735776000000))
    ∧ (onSubmit (some "https://api.example.com/onboard") sampleData 1735776000000
        (.response 200 (.str "thanks")) sampleState).submittedData
        ≠ some (.str "thanks") := by
  refine ⟨rfl, rfl, fun h => ?_⟩
  have h2 : some (Json.obj (buildPayload sampleData 1735776000000))
      = some (Json.str "thanks") := h
  exact Json.noConfusion (Option.some.inj h2)

/-- C2 (amended): on every 2xx response, the state transitions to
succeeded carrying the request payload that was sent (the response body
is never read), and the form fields are reset to their defaults. -/
theorem submit_success_rule (url : Option String) (d : FormData) (t status : ℕ)
    (body : Json) (s : AppState) (hurl : jsFalsyUrl url = false)
    (hok : responseOk status = true) :
    (onSubmit url d t (.response status body) s).isSubmitted = true
    ∧ (onSubmit url d t (.response status body) s).submittedData
        = some (.obj (buildPayload d t))
    ∧ (onSubmit url d t (.response status body) s).formValues = defaultValues
    ∧ (onSubmit url d t (.response status body) s).submissionError = none
    ∧ (onSubmit url d t (.response status body) s).isSubmitting = false := by
  refine ⟨?_, ?_, ?_, ?_, ?_⟩ <;> simp [onSubmit, hurl, hok]

/-- C2 witness: the success rule instantiated at a configured endpoint, a
200 response with body "ok", and the sample record and state. -/
theorem submit_success_rule_witness :
    jsFalsyUrl (some "https://api.example.com/onboard") = false
    ∧ responseOk 200 = true
    ∧ ((onSubmit (some "https://api.example.com/onboard") sampleData 1735776000000
          (.response 200 (.str "ok")) sampleState).isSubmitted = true
      ∧ (onSubmit (some "https://api.example.com/onboard") sampleData 1735776000000
          (.response 200 (.str "ok")) sampleState).submittedData
          = some (.obj (buildPayload sampleData 1735776000000))
      ∧ (onSubmit (some "https://api.example.com/onboard") sampleData 1735776000000
          (.response 200 (.str "ok")) sampleState).formValues = defaultValues
      ∧ (onSubmit (some "https://api.example.com/onboard") sampleData 1735776000000
          (.response 200 (.str "ok")) sampleState).submissionError = none
      ∧ (onSubmit (some "https://api.example.com/onboard") sampleData 1735776000000
          (.response 200 (.str "ok")) sampleState).isSubmitting = false) :=
  ⟨by decide, by decide,
    submit_success_rule (some "https://api.example.com/onboard") sampleData
      1735776000000 200 (.str "ok") sampleState (by decide) (by decide)⟩

/-- C3: with no configured endpoint (a falsy `apiUrl`), submission yields
the configuration-error state immediately, the fetch counter does not
move, the form values are untouched, and the result does not depend on
any network outcome — the error state is reached before any fetch. -/
theorem submit_unconfigured_rule (url : Option String) (d : FormData) (t : ℕ)
    (o : FetchOutcome) (s : AppState) (hurl : jsFalsyUrl url = true) :
    (onSubmit url d t o s).submissionError = some configErrMsg
    ∧ (onSubmit url d t o s).isSubmitting = false
    ∧ (onSubmit url d t o s).isSubmitted = false
    ∧ (onSubmit url d t o s).fetchCount = s.fetchCount
    ∧ (onSubmit url d t o s).formValues = s.formValues
    ∧ ∀ o' : FetchOutcome, onSubmit url d t o' s = onSubmit url d t o s := by
  refine ⟨?_, ?_, ?_, ?_, ?_, fun o' => ?_⟩ <;> simp [onSubmit, hurl]

/-- C3 witness: the unconfigured rule instantiated at `apiUrl = none`
with a network-failure outcome and the sample record and state. -/
theorem submit_unconfigured_rule_witness :
    jsFalsyUrl none = true
    ∧ ((onSubmit none sampleData 1735776000000 .networkFailure sampleState).submissionError
        = some configErrMsg
      ∧ (onSubmit none sampleData 1735776000000 .networkFailure sampleState).isSubmitting = false
      ∧ (onSubmit none sampleData 1735776000000 .networkFailure sampleState).isSubmitted = false
      ∧ (onSubmit none sampleData 1735776000000 .networkFailure sampleState).fetchCount
        = sampleState.fetchCount
      ∧ (onSubmit none sampleData 1735776000000 .networkFailure sampleState).formValues
        = sampleState.formValues
      ∧ ∀ o' : FetchOutcome, onSubmit none sampleData 1735776000000 o' sampleState
        = onSubmit none sampleData 1735776000000 .networkFailure sampleState) :=
  ⟨rfl, submit_unconfigured_rule none sampleData 1735776000000 .networkFailure
    sampleState rfl⟩

/-- C4: on every non-2xx response, the state transitions to failed with a
message containing the status code, and the form values are retained (no
reset happens). -/
theorem submit_httpError_rule (url : Option String) (d : FormData) (t status : ℕ)
    (body : Json) (s : AppState) (hurl : jsFalsyUrl url = false)
    (hbad : responseOk status = false) :
    (onSubmit url d t (.response status body) s).submissionError
        = some (apiErrMsg status)
    ∧ (∃ pre post : String, apiErrMsg status = pre ++ toString status ++ post)
    ∧ (onSubmit url d t (.response status body) s).formValues = s.formValues
    ∧ (onSubmit url d t (.response status body) s).isSubmitted = false
    ∧ (onSubmit url d t (.response status body) s).isSubmitting = false := by
  refine ⟨?_, ⟨"API Error: ", " - An error occurred.", rfl⟩, ?_, ?_, ?_⟩ <;>
    simp [onSubmit, hurl, hbad]

/-- C4 witness: the http-error rule instantiated at a configured endpoint
and a 500 response; the message is "API Error: 500 - An error occurred.". -/
theorem submit_httpError_rule_witness :
    jsFalsyUrl (some "https://api.example.com/onboard") = false
    ∧ responseOk 500 = false
    ∧ ((onSubmit (some "https://api.example.com/onboard") sampleData 1735776000000
          (.response 500 (.str "oops")) sampleState).submissionError
          = some (apiErrMsg 500)
      ∧ (∃ pre post : String, apiErrMsg 500 = pre ++ toString 500 ++ post)
      ∧ (onSubmit (some "https://api.example.com/onboard") sampleData 1735776000000
          (.response 500 (.str "oops")) sampleState).formValues = sampleState.formValues
      ∧ (onSubmit (some "https://api.example.com/onboard") sampleData 1735776000000
          (.response 500 (.str "oops")) sampleState).isSubmitted = false
      ∧ (onSubmit (some "https://api.example.com/onboard") sampleData 1735776000000
          (.response 500 (.str "oops")) sampleState).isSubmitting = false) :=
  ⟨by decide, by decide,
    submit_httpError_rule (some "https://api.example.com/onboard") sampleData
      1735776000000 500 (.str "oops") sampleState (by decide) (by decide)⟩

/-- C10: after any completed submission attempt the submitting flag is
clear and exactly one of the success indicator and the error indicator is
set: success with no error on a 2xx response, an error message with no
success otherwise. -/
theorem submit_exclusive_flags (url : Option String) (d : FormData) (t : ℕ)
    (o : FetchOutcome) (s : AppState) :
    (onSubmit url d t o s).isSubmitting = false
    ∧ (((onSubmit url d t o s).isSubmitted = true
          ∧ (onSubmit url d t o s).submissionError = none)
        ∨ ((onSubmit url d t o s).isSubmitted = false
          ∧ (onSubmit url d t o s).submissionError ≠ none)) := by
  by_cases hurl : jsFalsyUrl url = true
  · exact ⟨by simp [onSubmit, hurl],
      Or.inr ⟨by simp [onSubmit, hurl], by simp [onSubmit, hurl]⟩⟩
  · cases o with
    | response status body =>
      by_cases hok : responseOk status = true
      · exact ⟨by simp [onSubmit, hurl, hok],
          Or.inl ⟨by simp [onSubmit, hurl, hok], by simp [onSubmit, hurl, hok]⟩⟩
      · exact ⟨by simp [onSubmit, hurl, hok],
          Or.inr ⟨by simp [onSubmit, hurl, hok], by simp [onSubmit, hurl, hok]⟩⟩
    | networkFailure =>
      exact ⟨by simp [onSubmit, hurl],
        Or.inr ⟨by simp [onSubmit, hurl], by simp [onSubmit, hurl]⟩⟩

/-! ### Lifecycle theorems -/

theorem submitInv_init : SubmitInv initSt := ⟨by decide, fun _ => rfl⟩

theorem submitInv_step (s s' : SubmitSt) (h : SubmitInv s)
    (hs : SubmitStep s s') : SubmitInv s' := by
  cases hs with
  | click_config h0 => exact ⟨h.1, fun _ => h.2 h0⟩
  | click_fetch h0 =>
    have hz : s.inflight = 0 := h.2 h0
    exact ⟨by simp [hz], fun hc => nomatch hc⟩
  | settle h0 =>
    have h1 := h.1
    refine ⟨?_, fun _ => ?_⟩
    · show s.inflight - 1 ≤ 1
      omega
    · show s.inflight - 1 = 0
      omega

theorem reachable_inv (s : SubmitSt) (h : ReachableSt s) : SubmitInv s := by
  unfold ReachableSt at h
  induction h with
  | refl => exact submitInv_init
  | tail _hab hbc ih => exact submitInv_step _ _ ih hbc

/-- C8: in every reachable state of the submit lifecycle there is at most
one outstanding fetch; the `disabled={isSubmitting}` guard prevents a
second submission from starting while one is in flight. -/
theorem single_flight (s : SubmitSt) (h : ReachableSt s) : s.inflight ≤ 1 :=
  (reachable_inv s h).1

/-- C8 witness: the state with the flag set and one outstanding fetch is
reachable by one click, and satisfies the bound. -/
theorem single_flight_witness :
    ReachableSt ⟨true, 1⟩ ∧ (⟨true, 1⟩ : SubmitSt).inflight ≤ 1 := by
  have h : ReachableSt ⟨true, 1⟩ :=
    Relation.ReflTransGen.single (SubmitStep.click_fetch initSt rfl)
  exact ⟨h, single_flight ⟨true, 1⟩ h⟩
